import Mathlib

/-!
Verification development for the government-scheme-suggestor repository.

The repository ships the front-end glue (`src/frontend/app.js`); the core
engine (Field Matcher, Document Verifier, Eligibility Evaluator) lives in the
backend, which is not part of the visible sources.  Front-end operations are
embedded directly from `app.js`; backend operations are modelled from the
specification and are marked `Modelled from the spec:` in their doc comments.
-/

namespace GovScheme

/-- Document lifecycle states of the verification state machine (spec §4.2). -/
inductive DocStatus where
  | pending
  | verified
  | mismatch
  | extraction_failed
deriving DecidableEq, Repr, BEq

/-- Modelled from the spec: the extractor's best-effort structured record of
candidate fields (spec §6); any subset of fields may be present.  Numeric
income is modelled as `Option Int`. -/
structure FieldRecord where
  full_name : Option String := none
  dob : Option String := none
  id_number : Option String := none
  income : Option Int := none
deriving DecidableEq, Repr

/-- Modelled from the spec: the user profile record (spec §3); every field is
optional (nullable) per the explicit optional-field model of §9. -/
structure Profile where
  full_name : Option String := none
  dob : Option String := none
  state : Option String := none
  district : Option String := none
  income : Option Int := none
  category : Option String := none
  aadhaar_number : Option String := none
  role : Option String := none
deriving DecidableEq, Repr

/-- Modelled from the spec: a Document record (spec §3): identifier, display
name, lifecycle status, extracted field snapshot (nullable), validation
message (nullable), and the manual-attestation audit flag of §4.2. -/
structure Document where
  id : Nat
  name : String
  status : DocStatus
  extracted : Option FieldRecord := none
  validationMessage : Option String := none
  manuallyAttested : Bool := false
deriving DecidableEq, Repr

/-- Lower-cased, whitespace-collapsed form of a name (spec §4.1 name rule). -/
def normName (s : String) : String :=
  String.intercalate " " (((s.toLower).split (fun c => c.isWhitespace)).filter (fun w => w ≠ ""))

/-- Levenshtein edit distance between character lists, used for the
configurable OCR-noise tolerance of the name rule (spec §4.1). -/
def editDistance : List Char → List Char → Nat
  | [], ys => ys.length
  | x :: xs, [] => (x :: xs).length
  | x :: xs, y :: ys =>
    if x = y then editDistance xs ys
    else 1 + min (editDistance xs ys) (min (editDistance (x :: xs) ys) (editDistance xs (y :: ys)))
termination_by xs ys => xs.length + ys.length

/-- Normalize date-of-birth separators (spec §4.1 DOB rule): slashes and dots
become dashes, so `1990/05/01` and `1990-05-01` compare equal. -/
def normDob (s : String) : String :=
  s.map (fun c => if c = '/' ∨ c = '.' then '-' else c)

/-- Strip whitespace and dashes from a national ID number (spec §4.1). -/
def stripId (s : String) : String :=
  String.mk (s.data.filter (fun c => ¬ (c.isWhitespace ∨ c = '-')))

/-- Income tolerance band of spec §4.1: within 5 percent of the profile value,
i.e. 20·|extracted − profile| ≤ |profile|. -/
def incomeWithinTolerance (extractedVal profileVal : Int) : Bool :=
  (extractedVal - profileVal).natAbs * 20 ≤ profileVal.natAbs

/-- Field Matcher verdict (spec §4.1): verified, mismatch with reason, or
unverifiable with reason. -/
inductive MatchVerdict where
  | verified
  | mismatch (reason : String)
  | unverifiable (reason : String)
deriving DecidableEq, Repr

/-- Modelled from the spec: per-field comparison outcomes of the Field Matcher
(spec §4.1), returning the list of mismatch reasons and the list of
unverifiable reasons.  An absent extracted field is recorded as unverifiable
rather than verified; income is compared only when the extractor produced
one. -/
def fieldIssues (fr : FieldRecord) (p : Profile) : List String × List String :=
  let nameIssue : List String × List String :=
    match fr.full_name, p.full_name with
    | some e, some pv =>
      if normName e = normName pv ∨ editDistance (normName e).data (normName pv).data ≤ 1
      then ([], []) else (["name does not match profile"], [])
    | _, _ => ([], ["name unverifiable"])
  let dobIssue : List String × List String :=
    match fr.dob, p.dob with
    | some e, some pv =>
      if normDob e = normDob pv then ([], []) else (["date of birth does not match profile"], [])
    | _, _ => ([], ["date of birth unverifiable"])
  let idIssue : List String × List String :=
    match fr.id_number, p.aadhaar_number with
    | some e, some pv =>
      if stripId e = stripId pv then ([], []) else (["id number does not match profile"], [])
    | _, _ => ([], ["id number unverifiable"])
  let incomeIssue : List String × List String :=
    match fr.income with
    | none => ([], [])
    | some e =>
      match p.income with
      | some pv =>
        if incomeWithinTolerance e pv then ([], []) else (["income does not match profile"], [])
      | none => ([], ["income unverifiable"])
  (nameIssue.1 ++ dobIssue.1 ++ idIssue.1 ++ incomeIssue.1,
   nameIssue.2 ++ dobIssue.2 ++ idIssue.2 ++ incomeIssue.2)

/-- Modelled from the spec: `match(extracted, profile) -> MatchVerdict`
(spec §4.1).  Any failing field comparison prevents an overall verified
verdict; mismatches take precedence and the reason names the offending
fields. -/
def matchFields (fr : FieldRecord) (p : Profile) : MatchVerdict :=
  let issues := fieldIssues fr p
  match issues.1 with
  | m :: ms => .mismatch (String.intercalate "; " (m :: ms))
  | [] =>
    match issues.2 with
    | u :: us => .unverifiable (String.intercalate "; " (u :: us))
    | [] => .verified

/-- Opaque uploaded file contents, consumed only by the extractor strategy. -/
structure FileBytes where
  bytes : List Nat
deriving DecidableEq, Repr

/-- Modelled from the spec: outcome of `extract(fileBytes) -> FieldRecord |
Failure` (spec §6), with the extractor timeout of §5 as its own case. -/
inductive ExtractResult where
  | fields (fr : FieldRecord)
  | failure (reason : String)
  | timeout
deriving DecidableEq, Repr

/-- Validation message wording for extraction failures; its wording category
("could not read document") is distinct from any mismatch wording (spec §4.2,
§8). -/
def extractionFailedMsg (detail : String) : String :=
  "Could not read document: " ++ detail

/-- Validation message wording for matcher mismatches (spec §4.2). -/
def mismatchMsg (detail : String) : String :=
  "Field mismatch: " ++ detail

/-- Modelled from the spec: `verify(document, file_bytes) -> Document'`
(spec §4.2).  The extractor is a replaceable strategy (spec §9).  Extraction
success goes through the Field Matcher (verified / mismatch-or-unverifiable →
mismatch); extraction failure and timeout are caught locally and mapped to
`extraction_failed` — the function is total, never an error.  The extracted
snapshot is persisted even on mismatch. -/
def verify (extract : FileBytes → ExtractResult) (p : Profile)
    (d : Document) (f : FileBytes) : Document :=
  match extract f with
  | .failure r =>
    { d with status := .extraction_failed,
             validationMessage := some (extractionFailedMsg r),
             extracted := none }
  | .timeout =>
    { d with status := .extraction_failed,
             validationMessage := some (extractionFailedMsg "extractor timed out"),
             extracted := none }
  | .fields fr =>
    match matchFields fr p with
    | .verified =>
      { d with status := .verified, validationMessage := none, extracted := some fr }
    | .mismatch r =>
      { d with status := .mismatch, validationMessage := some (mismatchMsg r),
               extracted := some fr }
    | .unverifiable r =>
      { d with status := .mismatch, validationMessage := some (mismatchMsg r),
               extracted := some fr }

/-- User-declared field values of the manual edit/verify flow, the
`updateData` body built by `openEditDoc` in `app.js`. -/
structure UserFields where
  name : String
  full_name : String
  dob : String
  id_number : String
deriving DecidableEq, Repr

/-- Modelled from the spec: `manualOverride(document, userSuppliedFields) ->
Document'` (spec §4.2): accepts the user-declared values as authoritative,
bypasses extraction, transitions directly to verified, clears the validation
message, and records the manual attestation. -/
def manualOverride (d : Document) (u : UserFields) : Document :=
  { d with name := u.name,
           status := .verified,
           extracted := some { full_name := some u.full_name, dob := some u.dob,
                               id_number := some u.id_number, income := none },
           validationMessage := none,
           manuallyAttested := true }

/-- Case-insensitive string equality used for display-name matching
(spec §4.3 step 2). -/
def eqCI (a b : String) : Bool :=
  a.toLower = b.toLower

/-- Modelled from the spec: a document satisfies a scheme's required-document
label when its display name matches case-insensitively AND its status is
verified (spec §4.3 step 2); pending/mismatch/extraction_failed never
satisfy. -/
def satisfiesRequirement (d : Document) (label : String) : Bool :=
  eqCI d.name label && d.status == .verified

/-- Modelled from the spec: a scheme's structured eligibility rule over
profile fields (spec §3): income ceiling, category set, state/district match,
DOB range, role match.  An absent component imposes no constraint. -/
structure Rule where
  income_ceiling : Option Int := none
  allowed_categories : Option (List String) := none
  required_state : Option String := none
  required_district : Option String := none
  dob_range : Option (String × String) := none
  required_role : Option String := none
deriving DecidableEq, Repr

/-- Modelled from the spec: a Scheme catalog entry (spec §3). -/
structure Scheme where
  id : Nat
  name : String
  description : String := ""
  benefits : String := ""
  portal_url : String := ""
  required_documents : List String := []
  rule : Rule := {}
deriving DecidableEq, Repr

/-- First populated reason among a list of optional reasons. -/
def firstSome : List (Option String) → Option String
  | [] => none
  | some x :: _ => some x
  | none :: rest => firstSome rest

/-- Chronological (lexicographic, valid for normalized YYYY-MM-DD) order on
date strings. -/
def chronLe (a b : String) : Bool :=
  a = b ∨ a < b

/-- Income-ceiling component of the predicate; a missing profile field counts
as predicate failure, never an error (spec §4.3 step 1, §7). -/
def checkIncome (r : Rule) (p : Profile) : Option String :=
  match r.income_ceiling with
  | none => none
  | some c =>
    match p.income with
    | none => some "income not provided"
    | some i => if i ≤ c then none else some "income exceeds ceiling"

/-- Category-set component of the predicate. -/
def checkCategory (r : Rule) (p : Profile) : Option String :=
  match r.allowed_categories with
  | none => none
  | some cats =>
    match p.category with
    | none => some "category not provided"
    | some c => if cats.any (fun a => eqCI a c) then none else some "category not eligible"

/-- State-match component of the predicate. -/
def checkState (r : Rule) (p : Profile) : Option String :=
  match r.required_state with
  | none => none
  | some st =>
    match p.state with
    | none => some "state not provided"
    | some s => if eqCI s st then none else some "state not eligible"

/-- District-match component of the predicate. -/
def checkDistrict (r : Rule) (p : Profile) : Option String :=
  match r.required_district with
  | none => none
  | some di =>
    match p.district with
    | none => some "district not provided"
    | some d => if eqCI d di then none else some "district not eligible"

/-- DOB-range component of the predicate. -/
def checkDob (r : Rule) (p : Profile) : Option String :=
  match r.dob_range with
  | none => none
  | some (lo, hi) =>
    match p.dob with
    | none => some "date of birth not provided"
    | some d =>
      let nd := normDob d
      if chronLe lo nd && chronLe nd hi then none
      else some "date of birth outside eligible range"

/-- Role-match component of the predicate. -/
def checkRole (r : Rule) (p : Profile) : Option String :=
  match r.required_role with
  | none => none
  | some ro =>
    match p.role with
    | none => some "role not provided"
    | some x => if eqCI x ro then none else some "role not eligible"

/-- Modelled from the spec: evaluation of a scheme's profile predicate
(spec §4.3 step 1), returning `none` when the predicate holds and the failure
reason naming the missing/violating field otherwise. -/
def evalPredicate (r : Rule) (p : Profile) : Option String :=
  firstSome [checkIncome r p, checkCategory r p, checkState r p,
             checkDistrict r p, checkDob r p, checkRole r p]

/-- Modelled from the spec: the missing-document set of a scheme (spec §4.3
step 2): required labels with no verified document of matching display
name. -/
def missingDocuments (docs : List Document) (s : Scheme) : List String :=
  s.required_documents.filter (fun req => ! docs.any (fun d => satisfiesRequirement d req))

/-- Per-scheme eligibility verdict (spec §3), in the shape `renderSchemes`
consumes from the server (`is_eligible`, `reason`, `missing_documents`, …). -/
structure EligibilityResult where
  scheme_id : Nat
  name : String
  description : String
  benefits : String
  portal_url : String
  is_eligible : Bool
  reason : Option String
  missing_documents : List String
deriving DecidableEq, Repr

/-- Modelled from the spec: the per-scheme evaluation algorithm (spec §4.3):
eligible iff the predicate holds and no required document is missing; the
reason is exactly the predicate's failure reason (empty when the predicate
holds, regardless of document state). -/
def evalScheme (p : Profile) (docs : List Document) (s : Scheme) : EligibilityResult :=
  { scheme_id := s.id, name := s.name, description := s.description,
    benefits := s.benefits, portal_url := s.portal_url,
    is_eligible := (evalPredicate s.rule p).isNone && (missingDocuments docs s).isEmpty,
    reason := evalPredicate s.rule p,
    missing_documents := missingDocuments docs s }

/-- Modelled from the spec: `evaluate(profile, documents, catalog)` (spec
§4.3): one result per catalog scheme, in catalog order. -/
def evaluate (p : Profile) (docs : List Document) (catalog : List Scheme) :
    List EligibilityResult :=
  catalog.map (evalScheme p docs)

/-- The (profile, scheme) pair handed to the Application Kit Builder
(spec §6). -/
structure KitRequest where
  profile : Profile
  scheme : Scheme
deriving DecidableEq, Repr

/-- Modelled from the spec: the kit-request handler behind
`POST /schemes/id/apply` re-checks eligibility at request time against the
current documents, rather than trusting a cached flag, and supplies the Kit
Builder only on an eligible verdict (spec §6). -/
def applyScheme (p : Profile) (docs : List Document) (s : Scheme) : Option KitRequest :=
  if (evalScheme p docs s).is_eligible then some ⟨p, s⟩ else none

/-- Boolean success of a request outcome. -/
def isOkE (e : Except String Document) : Bool :=
  match e with
  | .ok _ => true
  | .error _ => false

/-- Modelled from the spec: the upload request handler (spec §4.2, §7):
rejects exactly on structural problems (missing or empty name, missing file);
otherwise it creates a fresh pending document and runs `verify`, so
extraction and matching outcomes become document states, never request
errors. -/
def uploadEndpoint (extract : FileBytes → ExtractResult) (p : Profile)
    (name : Option String) (file : Option FileBytes) (freshId : Nat) :
    Except String Document :=
  match name, file with
  | none, _ => .error "missing document name"
  | some _, none => .error "missing file"
  | some n, some f =>
    if n = "" then .error "missing document name"
    else .ok (verify extract p { id := freshId, name := n, status := .pending } f)

/-- Inputs read by `uploadDocument` in `app.js`: the name field's value and
the number of selected files. -/
structure UploadForm where
  name : String
  filesCount : Nat
deriving DecidableEq, Repr

/-- Outcome of the front-end `uploadDocument` flow in `app.js`: an alert
before any network call, or the POST request it issues. -/
inductive UploadOutcome where
  | rejected (msg : String)
  | request (name : String)
deriving DecidableEq, Repr

/-- Embedding of `uploadDocument` (`app.js` 238–261): the guard
`if (!name || fileInput.files.length === 0) return alert(...)` rejects before
the fetch; `!name` is true exactly for the empty string. -/
def uploadDocumentAction (form : UploadForm) : UploadOutcome :=
  if form.name = "" ∨ form.filesCount = 0 then .rejected "Select file and enter name"
  else .request form.name

/-- Embedding of `openEditDoc` (`app.js` 200–236): four sequential prompts;
`null` (cancel) at any of them returns before the PUT request is built, so
the result is the request body when all four answered, `none` otherwise. -/
def openEditDoc (newName newFullName newDob newId : Option String) :
    Option UserFields :=
  match newName with
  | none => none
  | some n =>
    match newFullName with
    | none => none
    | some fn =>
      match newDob with
      | none => none
      | some db =>
        match newId with
        | none => none
        | some idn => some { name := n, full_name := fn, dob := db, id_number := idn }

/-- JavaScript `v || 0` on a `parseFloat` result, which is modelled as
`Option Int` with `none` for NaN (non-numeric input): falsy values (NaN and
0) are replaced by 0, every other number — negative ones included — passes
through. -/
def jsOrZero (v : Option Int) : Int :=
  match v with
  | none => 0
  | some x => if x = 0 then 0 else x

/-- Form values read by `saveProfile` in `app.js`; `income_parsed` is the
`parseFloat` result of the income field (`none` models NaN). -/
structure ProfileFormInputs where
  full_name : String := ""
  dob : String := ""
  state : String := ""
  district : String := ""
  income_parsed : Option Int := none
  category : String := ""
  aadhaar_number : String := ""
deriving DecidableEq, Repr

/-- The JSON body `saveProfile` PUTs to the profile store. -/
structure ProfilePayload where
  full_name : String
  dob : String
  state : String
  district : String
  income : Int
  category : String
  aadhaar_number : String
deriving DecidableEq, Repr

/-- Embedding of `saveProfile` (`app.js` 129–150): every field passes through
unchanged except income, which is `parseFloat(...) || 0`. -/
def saveProfilePayload (i : ProfileFormInputs) : ProfilePayload :=
  { full_name := i.full_name, dob := i.dob, state := i.state,
    district := i.district, income := jsOrZero i.income_parsed,
    category := i.category, aadhaar_number := i.aadhaar_number }

/-- The action area `renderSchemes` attaches to one scheme card. -/
inductive SchemeAction where
  | kitAndPortal (schemeId : Nat) (portal : String)
  | uploadSuggestion (docName : String)
  | notEligibleLabel
deriving DecidableEq, Repr

/-- Embedding of the per-scheme action logic of `renderSchemes` (`app.js`
323–342): eligible schemes get the portal link and the `downloadKit` button;
ineligible ones get an upload suggestion for the first missing document, or a
plain "Not Eligible" label when none is missing. -/
def schemeAction (s : EligibilityResult) : SchemeAction :=
  if s.is_eligible then .kitAndPortal s.scheme_id s.portal_url
  else
    match s.missing_documents with
    | d :: _ => .uploadSuggestion d
    | [] => .notEligibleLabel

/-- C1: every EligibilityResult produced by evaluate() comes from a catalog
scheme, and: if eligible is true then the missing-document list is empty and
the scheme's predicate holds against the current profile; if eligible is
false then the result carries a non-empty predicate reason, or a non-empty
missing-document list, or both. -/
theorem c1_evaluate_result_invariant (p : Profile) (docs : List Document)
    (catalog : List Scheme) (s : Scheme) (hs : s ∈ catalog) :
    evalScheme p docs s ∈ evaluate p docs catalog ∧
    ((evalScheme p docs s).is_eligible = true →
      (evalScheme p docs s).missing_documents = [] ∧
      evalPredicate s.rule p = none) ∧
    ((evalScheme p docs s).is_eligible = false →
      (evalScheme p docs s).reason ≠ none ∨
      (evalScheme p docs s).missing_documents ≠ []) := by
  refine ⟨List.mem_map.mpr ⟨s, hs, rfl⟩, ?_, ?_⟩ <;>
    cases hpred : evalPredicate s.rule p <;>
      cases hmiss : missingDocuments docs s <;>
        simp [evalScheme, hpred, hmiss]

/-- C1 witness at a concrete input: a one-scheme catalog with an empty rule
and no required documents. -/
theorem c1_evaluate_result_invariant_witness :
    evalScheme {} [] { id := 7, name := "S" } ∈
      evaluate {} [] [{ id := 7, name := "S" }] ∧
    ((evalScheme {} [] { id := 7, name := "S" }).is_eligible = true →
      (evalScheme {} [] { id := 7, name := "S" }).missing_documents = [] ∧
      evalPredicate ({ id := 7, name := "S" } : Scheme).rule {} = none) ∧
    ((evalScheme {} [] { id := 7, name := "S" }).is_eligible = false →
      (evalScheme {} [] { id := 7, name := "S" }).reason ≠ none ∨
      (evalScheme {} [] { id := 7, name := "S" }).missing_documents ≠ []) :=
  c1_evaluate_result_invariant {} [] [{ id := 7, name := "S" }]
    { id := 7, name := "S" } (List.mem_singleton.mpr rfl)

/-- C2: evaluate() returns exactly one result per catalog scheme, in catalog
order — the i-th result is the evaluation of the i-th scheme, for every
profile and document set (so no scheme is ever omitted and results are never
re-sorted by eligibility). -/
theorem c2_evaluate_length_order (p : Profile) (docs : List Document)
    (catalog : List Scheme) :
    (evaluate p docs catalog).length = catalog.length ∧
    ∀ i : Nat, (evaluate p docs catalog)[i]? =
      catalog[i]?.map (evalScheme p docs) := by
  refine ⟨by simp [evaluate], fun i => ?_⟩
  simp [evaluate, List.getElem?_map]

/-- C3: the result's reason is exactly the predicate's failure reason,
independent of document state; when the predicate fails the scheme is
ineligible with that reason, and when the predicate holds the reason is empty
and the missing-document list alone carries the remediation. -/
theorem c3_reason_semantics (p : Profile) (docs : List Document) (s : Scheme) :
    (evalScheme p docs s).reason = evalPredicate s.rule p ∧
    (∀ msg, evalPredicate s.rule p = some msg →
      (evalScheme p docs s).is_eligible = false ∧
      (evalScheme p docs s).reason = some msg) ∧
    (evalPredicate s.rule p = none →
      (evalScheme p docs s).reason = none ∧
      (evalScheme p docs s).missing_documents = missingDocuments docs s) := by
  refine ⟨rfl, ?_, ?_⟩
  · intro msg h
    simp [evalScheme, h]
  · intro h
    simp [evalScheme, h]

/-- C3 witness at concrete inputs: a profile with income 50000 against an
income-ceiling-40000 scheme fails with the income reason; a predicate-passing
scheme whose only required document is held in mismatch state reports an
empty reason and the document in the missing list. -/
theorem c3_reason_semantics_witness :
    ((evalScheme { income := some 50000, category := some "general" } []
        { id := 1, name := "A", rule := { income_ceiling := some 40000 } }).is_eligible = false ∧
      (evalScheme { income := some 50000, category := some "general" } []
        { id := 1, name := "A", rule := { income_ceiling := some 40000 } }).reason =
        some "income exceeds ceiling") ∧
    ((evalScheme {} [{ id := 3, name := "Income Certificate", status := .mismatch }]
        { id := 2, name := "B", required_documents := ["Income Certificate"] }).reason = none ∧
      (evalScheme {} [{ id := 3, name := "Income Certificate", status := .mismatch }]
        { id := 2, name := "B", required_documents := ["Income Certificate"] }).missing_documents =
        missingDocuments [{ id := 3, name := "Income Certificate", status := .mismatch }]
          { id := 2, name := "B", required_documents := ["Income Certificate"] }) :=
  ⟨(c3_reason_semantics { income := some 50000, category := some "general" } []
      { id := 1, name := "A", rule := { income_ceiling := some 40000 } }).2.1
      "income exceeds ceiling" rfl,
   (c3_reason_semantics {} [{ id := 3, name := "Income Certificate", status := .mismatch }]
      { id := 2, name := "B", required_documents := ["Income Certificate"] }).2.2 rfl⟩

/-- C4: manual override transitions any document — whatever its prior
status — to verified with the manual attestation recorded, and the resulting
document satisfies scheme document requirements exactly like any other
verified document of the same display name (the requirement check never
distinguishes manual from automatic verification). -/
theorem c4_manual_override_verifies (d : Document) (u : UserFields) :
    (manualOverride d u).status = DocStatus.verified ∧
    (manualOverride d u).manuallyAttested = true ∧
    ∀ (d2 : Document) (label : String),
      d2.status = DocStatus.verified →
      d2.name = (manualOverride d u).name →
      satisfiesRequirement (manualOverride d u) label = satisfiesRequirement d2 label := by
  refine ⟨rfl, rfl, ?_⟩
  intro d2 label h1 h2
  simp only [manualOverride] at h2
  simp [satisfiesRequirement, manualOverride, h1, h2]

/-- C4 witness at a concrete input: overriding a mismatch document named
"Old" with user fields renaming it "Income Certificate" verifies it, and it
satisfies the requirement label exactly like an automatically verified
document of the same name. -/
theorem c4_manual_override_verifies_witness :
    (manualOverride { id := 1, name := "Old", status := .mismatch }
      { name := "Income Certificate", full_name := "A B", dob := "1990-01-01",
        id_number := "1234" }).status = DocStatus.verified ∧
    (manualOverride { id := 1, name := "Old", status := .mismatch }
      { name := "Income Certificate", full_name := "A B", dob := "1990-01-01",
        id_number := "1234" }).manuallyAttested = true ∧
    satisfiesRequirement
      (manualOverride { id := 1, name := "Old", status := .mismatch }
        { name := "Income Certificate", full_name := "A B", dob := "1990-01-01",
          id_number := "1234" }) "income certificate" =
      satisfiesRequirement { id := 2, name := "Income Certificate", status := .verified }
        "income certificate" :=
  ⟨(c4_manual_override_verifies { id := 1, name := "Old", status := .mismatch }
      { name := "Income Certificate", full_name := "A B", dob := "1990-01-01",
        id_number := "1234" }).1,
   (c4_manual_override_verifies { id := 1, name := "Old", status := .mismatch }
      { name := "Income Certificate", full_name := "A B", dob := "1990-01-01",
        id_number := "1234" }).2.1,
   (c4_manual_override_verifies { id := 1, name := "Old", status := .mismatch }
      { name := "Income Certificate", full_name := "A B", dob := "1990-01-01",
        id_number := "1234" }).2.2
      { id := 2, name := "Income Certificate", status := .verified }
      "income certificate" rfl rfl⟩

/-- C5: the front-end upload flow rejects before any network request exactly
when the name is empty or no file is selected, and the upload endpoint fails
the request exactly when name or file is structurally missing — for every
extractor outcome, so extraction failures and matching mismatches never cause
a rejection. -/
theorem c5_upload_structural_rejection (form : UploadForm)
    (extract : FileBytes → ExtractResult) (p : Profile)
    (name : Option String) (file : Option FileBytes) (freshId : Nat) :
    ((∃ msg, uploadDocumentAction form = .rejected msg) ↔
      (form.name = "" ∨ form.filesCount = 0)) ∧
    (isOkE (uploadEndpoint extract p name file freshId) = false ↔
      (name = none ∨ name = some "" ∨ file = none)) := by
  constructor
  · constructor
    · rintro ⟨msg, hm⟩
      by_cases hc : form.name = "" ∨ form.filesCount = 0
      · exact hc
      · simp [uploadDocumentAction, hc] at hm
    · intro hc
      exact ⟨"Select file and enter name", by simp [uploadDocumentAction, hc]⟩
  · cases name with
    | none => simp [uploadEndpoint, isOkE]
    | some n =>
      cases file with
      | none => simp [uploadEndpoint, isOkE]
      | some f =>
        by_cases hn : n = "" <;> simp [uploadEndpoint, isOkE, hn]

/-- C6: every extractor failure (error or timeout) is caught by verify() and
mapped to status extraction_failed with a "could not read document" message,
a wording category disjoint from every mismatch message; the document does
not stay pending, and the upload request still succeeds (the failure is a
document state, not a request error). -/
theorem c6_extraction_failure_recovery (extract : FileBytes → ExtractResult)
    (p : Profile) (d : Document) (f : FileBytes)
    (h : (∃ r, extract f = .failure r) ∨ extract f = .timeout) :
    (verify extract p d f).status = DocStatus.extraction_failed ∧
    (verify extract p d f).status ≠ DocStatus.pending ∧
    (∃ detail, (verify extract p d f).validationMessage =
      some (extractionFailedMsg detail)) ∧
    (∀ d1 d2 : String, extractionFailedMsg d1 ≠ mismatchMsg d2) ∧
    (∀ (n : String) (freshId : Nat), n ≠ "" →
      isOkE (uploadEndpoint extract p (some n) (some f) freshId) = true) := by
  have hmsg : ∀ d1 d2 : String, extractionFailedMsg d1 ≠ mismatchMsg d2 := by
    intro d1 d2 hEq
    have h2 := congrArg String.data hEq
    simp [extractionFailedMsg, mismatchMsg, String.data_append] at h2
  have hup : ∀ (n : String) (freshId : Nat), n ≠ "" →
      isOkE (uploadEndpoint extract p (some n) (some f) freshId) = true := by
    intro n freshId hn
    simp [uploadEndpoint, isOkE, hn]
  rcases h with ⟨r, hr⟩ | ht
  · exact ⟨by simp [verify, hr], by simp [verify, hr],
      ⟨r, by simp [verify, hr]⟩, hmsg, hup⟩
  · exact ⟨by simp [verify, ht], by simp [verify, ht],
      ⟨"extractor timed out", by simp [verify, ht]⟩, hmsg, hup⟩

/-- C6 witness at a concrete input: an extractor that always times out leaves
the document in extraction_failed, not pending. -/
theorem c6_extraction_failure_recovery_witness :
    (verify (fun _ => ExtractResult.timeout) {}
      { id := 1, name := "Aadhaar Card", status := .pending }
      { bytes := [1, 2, 3] }).status = DocStatus.extraction_failed ∧
    (verify (fun _ => ExtractResult.timeout) {}
      { id := 1, name := "Aadhaar Card", status := .pending }
      { bytes := [1, 2, 3] }).validationMessage =
      some "Could not read document: extractor timed out" :=
  ⟨(c6_extraction_failure_recovery (fun _ => ExtractResult.timeout) {}
      { id := 1, name := "Aadhaar Card", status := .pending }
      { bytes := [1, 2, 3] } (Or.inr rfl)).1, rfl⟩

/-- C7: verify() is idempotent and deterministic in (file, profile): the
resulting status and validation message never depend on the document's prior
state, so re-running verify() on its own output — any number of times —
reproduces the same status and the same reason. -/
theorem c7_verify_idempotent (extract : FileBytes → ExtractResult)
    (p : Profile) (f : FileBytes) (d d2 : Document) :
    (verify extract p d f).status = (verify extract p d2 f).status ∧
    (verify extract p d f).validationMessage =
      (verify extract p d2 f).validationMessage ∧
    (verify extract p (verify extract p d f) f).status =
      (verify extract p d f).status ∧
    (verify extract p (verify extract p d f) f).validationMessage =
      (verify extract p d f).validationMessage := by
  cases he : extract f with
  | failure r => simp [verify, he]
  | timeout => simp [verify, he]
  | fields fr => cases hm : matchFields fr p <;> simp [verify, he, hm]

/-- C5 witness at concrete inputs: the empty form is rejected, and an upload
with a name and file succeeds even under an always-failing extractor. -/
theorem c5_upload_structural_rejection_witness :
    ((∃ msg, uploadDocumentAction { name := "", filesCount := 0 } =
        UploadOutcome.rejected msg) ↔
      (({ name := "", filesCount := 0 } : UploadForm).name = "" ∨
        ({ name := "", filesCount := 0 } : UploadForm).filesCount = 0)) ∧
    (isOkE (uploadEndpoint (fun _ => ExtractResult.timeout) {}
        (some "Aadhaar Card") (some { bytes := [] }) 1) = false ↔
      ((some "Aadhaar Card" : Option String) = none ∨
        (some "Aadhaar Card" : Option String) = some "" ∨
        (some ({ bytes := [] } : FileBytes) : Option FileBytes) = none)) :=
  c5_upload_structural_rejection { name := "", filesCount := 0 }
    (fun _ => ExtractResult.timeout) {} (some "Aadhaar Card")
    (some { bytes := [] }) 1

/-- C8: the Kit Builder is gated on eligibility twice: the front end renders
the download-kit action only on a result whose most recent evaluation says
eligible, and the kit-request handler re-checks eligibility against the
current documents, producing a Kit Builder input only when that fresh
evaluation is eligible. -/
theorem c8_kit_request_gating (s : EligibilityResult) (i : Nat) (url : String)
    (p : Profile) (docs : List Document) (sch : Scheme) (req : KitRequest) :
    (schemeAction s = SchemeAction.kitAndPortal i url → s.is_eligible = true) ∧
    (applyScheme p docs sch = some req →
      (evalScheme p docs sch).is_eligible = true ∧
      req = { profile := p, scheme := sch }) := by
  constructor
  · intro h
    cases hel : s.is_eligible with
    | true => rfl
    | false =>
      exfalso
      cases hm : s.missing_documents <;> simp [schemeAction, hel, hm] at h
  · intro h
    cases hel : (evalScheme p docs sch).is_eligible with
    | true =>
      refine ⟨rfl, ?_⟩
      simp [applyScheme, hel] at h
      exact h.symm
    | false => simp [applyScheme, hel] at h

/-- C8 witness at concrete inputs: an eligible rendered result, and a kit
request through applyScheme for a scheme whose fresh evaluation is
eligible. -/
theorem c8_kit_request_gating_witness :
    (({ scheme_id := 5, name := "N", description := "", benefits := "",
        portal_url := "u", is_eligible := true, reason := none,
        missing_documents := [] } : EligibilityResult).is_eligible = true) ∧
    ((evalScheme {} [] { id := 7, name := "S" }).is_eligible = true ∧
      ({ profile := {}, scheme := { id := 7, name := "S" } } : KitRequest) =
        { profile := {}, scheme := { id := 7, name := "S" } }) :=
  ⟨(c8_kit_request_gating
      { scheme_id := 5, name := "N", description := "", benefits := "",
        portal_url := "u", is_eligible := true, reason := none,
        missing_documents := [] } 5 "u" {} [] { id := 7, name := "S" }
      { profile := {}, scheme := { id := 7, name := "S" } }).1 rfl,
   (c8_kit_request_gating
      { scheme_id := 5, name := "N", description := "", benefits := "",
        portal_url := "u", is_eligible := true, reason := none,
        missing_documents := [] } 5 "u" {} [] { id := 7, name := "S" }
      { profile := {}, scheme := { id := 7, name := "S" } }).2 rfl⟩

/-- C9 counterexample: the claim that every profile write carries a
non-negative income is false on the code — `parseFloat(...) || 0` only
replaces falsy values (NaN, 0), so an income field parsing to −5 is sent as
−5. -/
theorem c9_negative_income_counterexample :
    (saveProfilePayload { income_parsed := some (-5) }).income < 0 := by
  decide

/-- C9 (amended): the income sent by profile-save is always a number — NaN
(non-numeric input) is coerced to 0 — and it is non-negative whenever the
parsed input is not a negative number; a negative parsed value is sent
unchanged. -/
theorem c9_income_nonnegative_amended (i : ProfileFormInputs)
    (h : ∀ v, i.income_parsed = some v → 0 ≤ v) :
    0 ≤ (saveProfilePayload i).income := by
  cases hv : i.income_parsed with
  | none => simp [saveProfilePayload, jsOrZero, hv]
  | some v =>
    have hge := h v hv
    by_cases hz : v = 0
    · simp [saveProfilePayload, jsOrZero, hv, hz]
    · simpa [saveProfilePayload, jsOrZero, hv, hz] using hge

/-- C9 witness at a concrete input: a non-negative parsed income is sent
non-negative. -/
theorem c9_income_nonnegative_amended_witness :
    0 ≤ (saveProfilePayload { income_parsed := some 30000 }).income :=
  c9_income_nonnegative_amended { income_parsed := some 30000 }
    (fun v hv => by
      simp only [Option.some.injEq] at hv
      omega)

/-- C10: cancelling any of the four prompts of the manual edit/verify flow
(a `null` answer for document name, full name, DOB, or ID number) returns
before the PUT request is built, so no request — and in particular no partial
request — is ever issued; conversely a request is issued only when all four
prompts were answered, and it carries exactly those four answers. -/
theorem c10_prompt_cancel_aborts (a b c d : Option String) :
    ((a = none ∨ b = none ∨ c = none ∨ d = none) →
      openEditDoc a b c d = none) ∧
    (∀ u, openEditDoc a b c d = some u →
      a = some u.name ∧ b = some u.full_name ∧
      c = some u.dob ∧ d = some u.id_number) := by
  cases a <;> cases b <;> cases c <;> cases d <;> simp [openEditDoc]

/-- C10 witness at a concrete input: cancelling the first prompt issues no
request. -/
theorem c10_prompt_cancel_aborts_witness :
    openEditDoc none (some "a") (some "b") (some "c") = none :=
  (c10_prompt_cancel_aborts none (some "a") (some "b") (some "c")).1
    (Or.inl rfl)

end GovScheme
